import Mathlib

/-!
Shallow embedding of the `nautilus-tee-master` control plane
(`src/memory_store.rs`, `src/scheduler.rs`, `src/controller_manager.rs`)
and proofs about its store, placement and reconciler behaviour.

Modelling conventions:
* Rust byte vectors (`Vec<u8>`) become `List Nat`.
* `HashMap` fields become total functions (absent key ↦ default) or
  association lists; iteration-order-independent uses only are modelled.
* Wall-clock reads (`Instant::now()`, `SystemTime::now()`) become explicit
  `now : Nat` parameters threaded by the caller.
* `f64` score arithmetic is modelled by exact rationals `ℚ`; every score
  expression of the source is a short sum/quotient far from `f64` extremes.
* Atomic telemetry counters (`StoreMetrics`, `SchedulerMetrics`,
  `ControllerMetrics`) and latency measurements are not part of any claim
  and are omitted from the state.
-/

namespace NautilusTee

/-! ### Compression codec (external `lz4` crate, modelled)

Modelled from the spec: payloads above the threshold are "stored compressed
with a fast streaming codec" and the wire format prepends the uncompressed
size.  The source delegates to the external `lz4` crate
(`compress_prepend_size` / `decompress_size_prepended`), which is not part of
this repository.  The model is a run-length codec inside the same
size-prepending frame; the store logic only relies on the codec
round-tripping, and the refutations only rely on the empirical fact that a
highly compressible payload shrinks below the threshold (true of LZ4).
-/

/-- One run-length run: emits `[count, byte]` pairs, counts capped at 255
(as a byte-oriented codec must). -/
def rle_encode_run : Nat → Nat → List Nat → List Nat
  | cur, cnt, [] => [cnt, cur]
  | cur, cnt, b :: rest =>
    if b = cur ∧ cnt < 255 then rle_encode_run cur (cnt + 1) rest
    else cnt :: cur :: rle_encode_run b 1 rest

/-- Run-length encode a byte list. -/
def rle_encode : List Nat → List Nat
  | [] => []
  | b :: rest => rle_encode_run b 1 rest

/-- Run-length decode. -/
def rle_decode : List Nat → List Nat
  | cnt :: b :: rest => List.replicate cnt b ++ rle_decode rest
  | _ => []

/-- Little-endian 32-bit length prefix, as four bytes. -/
def le32_encode (n : Nat) : List Nat :=
  [n % 256, n / 256 % 256, n / 65536 % 256, n / 16777216 % 256]

/-- Reassemble the 32-bit little-endian length prefix. -/
def le32_decode (a b c d : Nat) : Nat :=
  a + 256 * (b + 256 * (c + 256 * d))

/-- Model of `lz4::compress_prepend_size`: 4-byte little-endian uncompressed
size followed by the coded payload. -/
def compress_prepend_size (p : List Nat) : List Nat :=
  le32_encode p.length ++ rle_encode p

/-- Model of `lz4::decompress_size_prepended`: strip the size frame, decode,
and fail when the decoded length disagrees with the frame. -/
def decompress_size_prepended (d : List Nat) : Option (List Nat) :=
  match d with
  | a :: b :: c :: e :: rest =>
    let n := le32_decode a b c e
    let p := rle_decode rest
    if p.length = n then some p else none
  | _ => none

theorem rle_decode_encode_run (l : List Nat) :
    ∀ b n : Nat, rle_decode (rle_encode_run b n l) = List.replicate n b ++ l := by
  induction l with
  | nil =>
    intro b n
    simp [rle_encode_run, rle_decode]
  | cons c rest ih =>
    intro b n
    by_cases h : c = b ∧ n < 255
    · rw [rle_encode_run, if_pos h, ih b (n + 1), h.1]
      rw [List.replicate_succ']
      simp
    · rw [rle_encode_run, if_neg h, rle_decode, ih c 1]
      simp

theorem rle_decode_encode (p : List Nat) : rle_decode (rle_encode p) = p := by
  cases p with
  | nil => rfl
  | cons b rest =>
    rw [rle_encode, rle_decode_encode_run]
    rfl

theorem le32_decode_encode (n : Nat) (h : n < 4294967296) :
    le32_decode (n % 256) (n / 256 % 256) (n / 65536 % 256) (n / 16777216 % 256) = n := by
  unfold le32_decode
  omega

theorem decompress_compress (p : List Nat) (h : p.length < 4294967296) :
    decompress_size_prepended (compress_prepend_size p) = some p := by
  have h1 : compress_prepend_size p =
      p.length % 256 :: p.length / 256 % 256 :: p.length / 65536 % 256 ::
        p.length / 16777216 % 256 :: rle_encode p := by
    simp [compress_prepend_size, le32_encode]
  rw [h1, decompress_size_prepended]
  simp [rle_decode_encode, le32_decode_encode p.length h]

/-! ### The store (`src/memory_store.rs`) -/

/-- `ObjectMetadata` of `memory_store.rs`.  The Rust field `namespace` is a
Lean keyword and is rendered `nspace`; `HashMap`-typed labels/annotations
become association lists; the `[u8; 32]` checksum becomes a byte list. -/
structure ObjectMetadata where
  kind : String
  nspace : Option String
  labels : List (String × String)
  annots : List (String × String)
  size : Nat
  checksum : List Nat
deriving Repr, DecidableEq

/-- `CompressedObject` of `memory_store.rs`. -/
structure CompressedObject where
  data : List Nat
  metadata : ObjectMetadata
  created : Nat
  modified : Nat
  resource_version : Nat
deriving Repr, DecidableEq

/-- `StoreConfig` of `memory_store.rs`. -/
structure StoreConfig where
  max_objects : Nat
  compression_threshold : Nat
  memory_limit : Nat
  integrity_check : Bool
  batch_size : Nat

/-- `StoreConfig::default()`. -/
def StoreConfig.default : StoreConfig :=
  { max_objects := 100000
    compression_threshold := 1024
    memory_limit := 2000000000
    integrity_check := true
    batch_size := 1000 }

/-- State of `TeeMemoryStore`: the per-kind `RwLock<HashMap>` tables of
`ResourceStores` (named kinds and the `custom_resources` map alike) are
flattened into one total function `resource_type → key → object?`, which is
exactly the dispatch `create_object`/`get_object`/`delete_object` perform on
the `resource_type` string.  `IndexStore`'s maps become total functions to
key lists (`Vec<String>` push order preserved). -/
structure TeeMemoryStore where
  revision : Nat
  tables : String → String → Option CompressedObject
  namespace_index : String → List String
  label_index : String → List String
  field_index : String → List String

/-- `TeeMemoryStore::new()` / `with_config`: revision counter starts at 1,
all tables and indexes empty. -/
def TeeMemoryStore.new : TeeMemoryStore :=
  { revision := 1
    tables := fun _ _ => none
    namespace_index := fun _ => []
    label_index := fun _ => []
    field_index := fun _ => [] }

/-- The label-index arm of `update_indexes_for_create`: for each label pair
push the key onto the `"k=v"` selector entry. -/
def push_label_index (σ : TeeMemoryStore) (key : String) :
    List (String × String) → TeeMemoryStore
  | [] => σ
  | (lk, lv) :: rest =>
    push_label_index
      { σ with
        label_index := fun s =>
          if s = lk ++ "=" ++ lv then σ.label_index s ++ [key] else σ.label_index s }
      key rest

/-- `TeeMemoryStore::update_indexes_for_create`: push the key onto the
namespace entry (when the object is namespaced) and onto each label entry.
The `resource_type` argument is accepted and ignored, as in the source. -/
def update_indexes_for_create (σ : TeeMemoryStore) (_resource_type key : String)
    (metadata : ObjectMetadata) : TeeMemoryStore :=
  let σ1 :=
    match metadata.nspace with
    | some ns =>
      { σ with
        namespace_index := fun n =>
          if n = ns then σ.namespace_index n ++ [key] else σ.namespace_index n }
    | none => σ
  push_label_index σ1 key metadata.labels

/-- `TeeMemoryStore::update_indexes_for_delete`: remove every occurrence of
the key from every namespace, label and field index entry. -/
def update_indexes_for_delete (σ : TeeMemoryStore) (_resource_type key : String) :
    TeeMemoryStore :=
  { σ with
    namespace_index := fun n => (σ.namespace_index n).filter (fun k => k != key)
    label_index := fun s => (σ.label_index s).filter (fun k => k != key)
    field_index := fun s => (σ.field_index s).filter (fun k => k != key) }

/-- `TeeMemoryStore::create_object`: take the current revision
(`fetch_add(1)` returns the pre-increment value), compress when the payload
exceeds the threshold, insert (overwriting any existing entry), update the
indexes, return the taken revision. -/
def create_object (cfg : StoreConfig) (σ : TeeMemoryStore) (resource_type key : String)
    (data : List Nat) (metadata : ObjectMetadata) (now : Nat) :
    TeeMemoryStore × Nat :=
  let revision := σ.revision
  let compressed_data :=
    if data.length > cfg.compression_threshold then compress_prepend_size data else data
  let obj : CompressedObject :=
    { data := compressed_data, metadata := metadata, created := now, modified := now
      resource_version := revision }
  let σ1 : TeeMemoryStore :=
    { σ with
      revision := σ.revision + 1
      tables := fun rt k =>
        if rt = resource_type ∧ k = key then some obj else σ.tables rt k }
  (update_indexes_for_create σ1 resource_type key metadata, revision)

/-- `TeeMemoryStore::decompress_object`: attempt decompression only when the
*stored* length exceeds the threshold; on decoder failure return the raw
bytes (`unwrap_or_else`). -/
def decompress_object (cfg : StoreConfig) (data : List Nat) : List Nat :=
  if data.length > cfg.compression_threshold then
    match decompress_size_prepended data with
    | some p => p
    | none => data
  else data

/-- `TeeMemoryStore::get_object` (the `data` component of its
`OperationResult`). -/
def get_object (cfg : StoreConfig) (σ : TeeMemoryStore) (resource_type key : String) :
    Option (List Nat) :=
  (σ.tables resource_type key).map (fun o => decompress_object cfg o.data)

/-- `TeeMemoryStore::delete_object`: remove the entry of that one kind; only
when something was removed, scrub the indexes and advance the revision
counter. -/
def delete_object (σ : TeeMemoryStore) (resource_type key : String) :
    TeeMemoryStore × Bool :=
  match σ.tables resource_type key with
  | none => (σ, false)
  | some _ =>
    let σ1 : TeeMemoryStore :=
      { σ with
        tables := fun rt k =>
          if rt = resource_type ∧ k = key then none else σ.tables rt k }
    let σ2 := update_indexes_for_delete σ1 resource_type key
    ({ σ2 with revision := σ2.revision + 1 }, true)

/-- `TeeMemoryStore::update_object`: when `expected_version` is supplied the
code only checks *existence* via `get_object` (its comment: "we'll assume it
matches"); on absence it returns `Err("Object not found")`.  It then deletes
the old object and creates the new one. -/
def update_object (cfg : StoreConfig) (σ : TeeMemoryStore) (resource_type key : String)
    (data : List Nat) (metadata : ObjectMetadata) (expected_version : Option Nat)
    (now : Nat) : TeeMemoryStore × Except String Nat :=
  let proceed : TeeMemoryStore → TeeMemoryStore × Except String Nat := fun σ =>
    let σ1 := (delete_object σ resource_type key).1
    let r := create_object cfg σ1 resource_type key data metadata now
    (r.1, Except.ok r.2)
  match expected_version with
  | some _ =>
    match σ.tables resource_type key with
    | some _ => proceed σ
    | none => (σ, Except.error "Object not found")
  | none => proceed σ

/-! ### The scheduler (`src/scheduler.rs`) -/

/-- `TaintEffect` of `scheduler.rs`. -/
inductive TaintEffect where
  | NoSchedule
  | PreferNoSchedule
  | NoExecute
deriving Repr, DecidableEq

/-- `NodeTaint` of `scheduler.rs`. -/
structure NodeTaint where
  key : String
  value : Option String
  effect : TaintEffect
deriving Repr, DecidableEq

/-- `NodeConditions` of `scheduler.rs`. -/
structure NodeConditions where
  ready : Bool
  memory_pressure : Bool
  disk_pressure : Bool
  pid_pressure : Bool
  network_unavailable : Bool
deriving Repr, DecidableEq

/-- `CachedNodeInfo` of `scheduler.rs`; `i64` resource quantities become `ℤ`,
the `f64` coarse score becomes `ℚ`, `updated_at : Instant` is dropped
(wall-clock, read nowhere in the modelled paths). -/
structure CachedNodeInfo where
  name : String
  available_cpu : Int
  available_memory : Int
  available_storage : Int
  labels : List (String × String)
  taints : List NodeTaint
  pod_count : Nat
  conditions : NodeConditions
  score : ℚ

/-- `SelectorOperator` of `scheduler.rs`. -/
inductive SelectorOperator where
  | In
  | NotIn
  | Exists
  | DoesNotExist
  | Gt
  | Lt
deriving Repr, DecidableEq

/-- `NodeSelectorRequirement` of `scheduler.rs`. -/
structure NodeSelectorRequirement where
  key : String
  operator : SelectorOperator
  values : List String
deriving Repr, DecidableEq

/-- `NodeSelectorTerm` of `scheduler.rs`. -/
structure NodeSelectorTerm where
  match_expressions : List NodeSelectorRequirement
  match_fields : List NodeSelectorRequirement
deriving Repr, DecidableEq

/-- `NodeSelector` of `scheduler.rs`. -/
structure NodeSelector where
  terms : List NodeSelectorTerm
deriving Repr, DecidableEq

/-- `WeightedNodeSelector` of `scheduler.rs`. -/
structure WeightedNodeSelector where
  weight : Int
  preference : NodeSelectorTerm
deriving Repr, DecidableEq

/-- `NodeAffinity` of `scheduler.rs`. -/
structure NodeAffinity where
  required : Option NodeSelector
  preferred : List WeightedNodeSelector
deriving Repr, DecidableEq

/-- `LabelSelectorRequirement` of `scheduler.rs`. -/
structure LabelSelectorRequirement where
  key : String
  operator : SelectorOperator
  values : List String
deriving Repr, DecidableEq

/-- `LabelSelector` of `scheduler.rs`. -/
structure LabelSelector where
  match_labels : List (String × String)
  match_expressions : List LabelSelectorRequirement
deriving Repr, DecidableEq

/-- `PodAffinityTerm` of `scheduler.rs`. -/
structure PodAffinityTerm where
  label_selector : LabelSelector
  topology_key : String
  namespace_selector : Option LabelSelector
  namespaces : List String
deriving Repr, DecidableEq

/-- `WeightedPodAffinityTerm` of `scheduler.rs`. -/
structure WeightedPodAffinityTerm where
  weight : Int
  pod_affinity_term : PodAffinityTerm
deriving Repr, DecidableEq

/-- `PodAffinity` of `scheduler.rs`. -/
structure PodAffinity where
  required : List PodAffinityTerm
  preferred : List WeightedPodAffinityTerm
deriving Repr, DecidableEq

/-- `PodAntiAffinity` of `scheduler.rs`. -/
structure PodAntiAffinity where
  required : List PodAffinityTerm
  preferred : List WeightedPodAffinityTerm
deriving Repr, DecidableEq

/-- `TolerationOperator` of `scheduler.rs`. -/
inductive TolerationOperator where
  | Exists
  | Equal
deriving Repr, DecidableEq

/-- `Toleration` of `scheduler.rs`. -/
structure Toleration where
  key : Option String
  operator : Option TolerationOperator
  value : Option String
  effect : Option TaintEffect
  toleration_seconds : Option Int
deriving Repr, DecidableEq

/-- `ResourceRequirements` of `scheduler.rs`. -/
structure ResourceRequirements where
  cpu_request : Int
  memory_request : Int
  storage_request : Int
  cpu_limit : Option Int
  memory_limit : Option Int
  extended_resources : List (String × Int)
deriving Repr, DecidableEq

/-- `PendingPod` of `scheduler.rs`; `created_at`/`deadline` (`Instant`) are
dropped — the modelled scheduling paths never read them. -/
structure PendingPod where
  id : String
  name : String
  nspace : String
  resources : ResourceRequirements
  node_affinity : Option NodeAffinity
  pod_affinity : Option PodAffinity
  pod_anti_affinity : Option PodAntiAffinity
  tolerations : List Toleration
  priority : Int

/-- `TeeScheduler::has_sufficient_resources`. -/
def has_sufficient_resources (node : CachedNodeInfo) (requirements : ResourceRequirements) :
    Bool :=
  decide (requirements.cpu_request ≤ node.available_cpu) &&
  decide (requirements.memory_request ≤ node.available_memory) &&
  decide (requirements.storage_request ≤ node.available_storage)

/-- `TeeScheduler::toleration_matches_taint`: key equality, a keyless
toleration is a wildcard. -/
def toleration_matches_taint (toleration : Toleration) (taint : NodeTaint) : Bool :=
  match toleration.key with
  | some key => key == taint.key
  | none => true

/-- `TeeScheduler::check_tolerations`: a node passes iff every taint is
either matched by some toleration or does not have the `NoSchedule` effect
(the loop returns `false` exactly for an untolerated `NoSchedule` taint). -/
def check_tolerations (node : CachedNodeInfo) (tolerations : List Toleration) : Bool :=
  node.taints.all fun taint =>
    tolerations.any (fun toleration => toleration_matches_taint toleration taint) ||
      !(match taint.effect with
        | TaintEffect.NoSchedule => true
        | _ => false)

/-- `TeeScheduler::evaluate_node_selector_requirement`; `Gt`/`Lt` fall to the
catch-all `true` arm as in the source. -/
def evaluate_node_selector_requirement (node : CachedNodeInfo)
    (req : NodeSelectorRequirement) : Bool :=
  let node_value := node.labels.lookup req.key
  match req.operator with
  | SelectorOperator.In =>
    match node_value with
    | some value => req.values.contains value
    | none => false
  | SelectorOperator.NotIn =>
    match node_value with
    | some value => !(req.values.contains value)
    | none => true
  | SelectorOperator.Exists => node_value.isSome
  | SelectorOperator.DoesNotExist => node_value.isNone
  | _ => true

/-- `TeeScheduler::node_matches_selector_term`. -/
def node_matches_selector_term (node : CachedNodeInfo) (term : NodeSelectorTerm) : Bool :=
  term.match_expressions.all (evaluate_node_selector_requirement node) &&
  term.match_fields.all (evaluate_node_selector_requirement node)

/-- `TeeScheduler::node_matches_selector`. -/
def node_matches_selector (node : CachedNodeInfo) (selector : NodeSelector) : Bool :=
  selector.terms.any (node_matches_selector_term node)

/-- The preferred-terms accumulation inside
`TeeScheduler::calculate_node_affinity_score`. -/
def preferred_affinity_sum (node : CachedNodeInfo) :
    List WeightedNodeSelector → ℚ
  | [] => 0
  | preferred :: rest =>
    (if node_matches_selector_term node preferred.preference
      then (preferred.weight : ℚ) / 100 else 0) + preferred_affinity_sum node rest

/-- `TeeScheduler::calculate_node_affinity_score`: a failed required selector
returns 0; otherwise 0.5 for a matched required selector plus matched
preferred weights / 100, capped at 1. -/
def calculate_node_affinity_score (node : CachedNodeInfo) (affinity : NodeAffinity) : ℚ :=
  match affinity.required with
  | some required =>
    if !(node_matches_selector node required) then 0
    else min ((1 : ℚ) / 2 + preferred_affinity_sum node affinity.preferred) 1
  | none => min (preferred_affinity_sum node affinity.preferred) 1

/-- `TeeScheduler::calculate_resource_score`: utilization target 0.7 on cpu
and memory, averaged. -/
def calculate_resource_score (node : CachedNodeInfo) (requirements : ResourceRequirements) :
    ℚ :=
  let cpu_ratio := (requirements.cpu_request : ℚ) / ((max node.available_cpu 1 : Int) : ℚ)
  let memory_ratio :=
    (requirements.memory_request : ℚ) / ((max node.available_memory 1 : Int) : ℚ)
  let target_utilization : ℚ := 7 / 10
  let cpu_score := 1 - |cpu_ratio - target_utilization|
  let memory_score := 1 - |memory_ratio - target_utilization|
  (cpu_score + memory_score) / 2

/-- `TeeScheduler::calculate_pod_affinity_score` (a constant in the source). -/
def calculate_pod_affinity_score (_node : CachedNodeInfo) (_pod : PendingPod) : ℚ :=
  1 / 2

/-- `TeeScheduler::calculate_load_balancing_score`. -/
def calculate_load_balancing_score (node : CachedNodeInfo) : ℚ :=
  1 - (node.pod_count : ℚ) / 110

/-- `TeeScheduler::calculate_condition_score`. -/
def calculate_condition_score (node : CachedNodeInfo) : ℚ :=
  let s0 : ℚ := 1
  let s1 := if !node.conditions.ready then s0 - 8 / 10 else s0
  let s2 := if node.conditions.memory_pressure then s1 - 2 / 10 else s1
  let s3 := if node.conditions.disk_pressure then s2 - 2 / 10 else s2
  let s4 := if node.conditions.pid_pressure then s3 - 1 / 10 else s3
  max s4 0

/-- `TeeScheduler::calculate_node_score`: weighted sum (resources 40,
node affinity 20, pod affinity 20, load balancing 10, conditions 10). -/
def calculate_node_score (node : CachedNodeInfo) (pod : PendingPod) : ℚ :=
  calculate_resource_score node pod.resources * 40 +
  (match pod.node_affinity with
    | some affinity => calculate_node_affinity_score node affinity * 20
    | none => 0) +
  calculate_pod_affinity_score node pod * 20 +
  calculate_load_balancing_score node * 10 +
  calculate_condition_score node * 10

/-- The candidate loop of `TeeScheduler::find_best_node`, carrying the
running best node and best score; a candidate reaching a score of at least
100 terminates the loop early (`break`). -/
def find_best_node_go (nodes : String → Option CachedNodeInfo) (pod : PendingPod) :
    List String → Option String → ℚ → Option (String × ℚ)
  | [], best_node, best_score => best_node.map (fun n => (n, best_score))
  | node_name :: rest, best_node, best_score =>
    match nodes node_name with
    | none => find_best_node_go nodes pod rest best_node best_score
    | some node_info =>
      if !(has_sufficient_resources node_info pod.resources) then
        find_best_node_go nodes pod rest best_node best_score
      else if !node_info.conditions.ready || node_info.conditions.memory_pressure ||
          node_info.conditions.disk_pressure then
        find_best_node_go nodes pod rest best_node best_score
      else if !(check_tolerations node_info pod.tolerations) then
        find_best_node_go nodes pod rest best_node best_score
      else
        let score := calculate_node_score node_info pod
        if best_score < score then
          if 100 ≤ score then some (node_name, score)
          else find_best_node_go nodes pod rest (some node_name) score
        else find_best_node_go nodes pod rest best_node best_score

/-- `TeeScheduler::find_best_node`: iterate the `sorted_nodes` vector over
the node cache, best score starting at 0.0. -/
def find_best_node (nodes : String → Option CachedNodeInfo) (sorted_nodes : List String)
    (pod : PendingPod) : Option (String × ℚ) :=
  find_best_node_go nodes pod sorted_nodes none 0

/-- `CachedDecision` of `scheduler.rs`; the `timestamp : Instant` used only
for the TTL test is replaced by the explicit `fresh` flag fed to
`validate_cached_decision` (see there). -/
structure CachedDecision where
  node : String
  score : ℚ
  projected_usage : ResourceRequirements

/-- State of `TeeScheduler` relevant to scheduling: the node cache map, the
`sorted_nodes` vector and the decision cache (association list, newest
first, mirroring `HashMap` insert-overwrites-lookup). -/
structure TeeSchedulerState where
  nodes : String → Option CachedNodeInfo
  sorted_nodes : List String
  decision_cache : List (String × CachedDecision)

/-- `TeeScheduler::generate_pod_signature`. -/
def generate_pod_signature (pod : PendingPod) : String :=
  toString pod.resources.cpu_request ++ ":" ++ toString pod.resources.memory_request ++
    ":" ++ toString pod.resources.storage_request ++ ":" ++ toString pod.priority

/-- `TeeScheduler::validate_cached_decision`: the decision must still be
inside its TTL (the wall-clock comparison `timestamp.elapsed() ≤ ttl`,
abstracted as the boolean `fresh`) and the target node must still pass
`has_sufficient_resources` for the pod's request. -/
def validate_cached_decision (σ : TeeSchedulerState) (pod : PendingPod) (fresh : Bool)
    (decision : CachedDecision) : Bool :=
  fresh &&
    (match σ.nodes decision.node with
      | some node_info => has_sufficient_resources node_info pod.resources
      | none => false)

/-- `DecisionCache::put`: evict one (arbitrary, here the most recent) entry
when full, then insert. -/
def decision_cache_put (max_size : Nat) (cache : List (String × CachedDecision))
    (key : String) (decision : CachedDecision) : List (String × CachedDecision) :=
  let cache := if max_size ≤ cache.length then cache.drop 1 else cache
  (key, decision) :: cache

/-- `TeeScheduler::allocate_resources`: subtract the requests from the
selected node's availability and bump its pod count; a vanished node is left
alone (`get_mut` miss). -/
def allocate_resources (σ : TeeSchedulerState) (node_name : String)
    (resources : ResourceRequirements) : TeeSchedulerState :=
  match σ.nodes node_name with
  | none => σ
  | some node_info =>
    { σ with
      nodes := fun n =>
        if n = node_name then
          some { node_info with
            available_cpu := node_info.available_cpu - resources.cpu_request
            available_memory := node_info.available_memory - resources.memory_request
            available_storage := node_info.available_storage - resources.storage_request
            pod_count := node_info.pod_count + 1 }
        else σ.nodes n }

/-- `TeeScheduler::schedule_pod` (sequential model): a cache hit that
validates returns the cached binding *without* touching the node cache;
otherwise a fresh `find_best_node` decision is cached and its resources
allocated.  `enable_decision_cache` and `max_cache_size` are the
configuration fields of `SchedulerConfig`; `fresh` abstracts the wall-clock
TTL test of the cache entry. -/
def schedule_pod (enable_decision_cache : Bool) (max_cache_size : Nat)
    (σ : TeeSchedulerState) (pod : PendingPod) (fresh : Bool) :
    TeeSchedulerState × Option (String × ℚ) :=
  let hit : Option CachedDecision :=
    if enable_decision_cache then
      match σ.decision_cache.lookup (generate_pod_signature pod) with
      | some decision =>
        if validate_cached_decision σ pod fresh decision then some decision else none
      | none => none
    else none
  match hit with
  | some decision => (σ, some (decision.node, decision.score))
  | none =>
    match find_best_node σ.nodes σ.sorted_nodes pod with
    | some (node, score) =>
      let σ1 :=
        if enable_decision_cache then
          { σ with
            decision_cache :=
              decision_cache_put max_cache_size σ.decision_cache
                (generate_pod_signature pod)
                { node := node, score := score, projected_usage := pod.resources } }
        else σ
      (allocate_resources σ1 node pod.resources, some (node, score))
    | none => (σ, none)

/-! ### The reconciler queue (`src/controller_manager.rs`) -/

/-- `EventType` of `controller_manager.rs`. -/
inductive EventType where
  | Create
  | Update
  | Delete
  | StatusUpdate
  | PeriodicSync
deriving Repr, DecidableEq

/-- `EventPriority` of `controller_manager.rs`. -/
inductive EventPriority where
  | Critical
  | High
  | Normal
  | Low
deriving Repr, DecidableEq

/-- `ReconciliationEvent` of `controller_manager.rs`; `timestamp : Instant`
becomes a `Nat` tick. -/
structure ReconciliationEvent where
  resource_type : String
  resource_key : String
  event_type : EventType
  data : List Nat
  priority : EventPriority
  timestamp : Nat
  retry_count : Nat
deriving Repr, DecidableEq

/-- `EventQueue` of `controller_manager.rs`: the four priority `VecDeque`s
and the dedup `HashMap<String, Instant>` (association list, newest entry
first so that lookup sees the latest insert). -/
structure EventQueue where
  critical : List ReconciliationEvent
  high : List ReconciliationEvent
  normal : List ReconciliationEvent
  low : List ReconciliationEvent
  dedup_map : List (String × Nat)
deriving Repr, DecidableEq

/-- `EventQueue::new()`. -/
def EventQueue.new : EventQueue := ⟨[], [], [], [], []⟩

/-- The dedup key `format!("{}:{}", resource_type, resource_key)`. -/
def dedup_key_of (event : ReconciliationEvent) : String :=
  event.resource_type ++ ":" ++ event.resource_key

/-- The priority `match` at the end of `queue_event`: push onto the matching
`VecDeque`'s back. -/
def enqueue_by_priority (queue : EventQueue) (event : ReconciliationEvent) : EventQueue :=
  match event.priority with
  | EventPriority.Critical => { queue with critical := queue.critical ++ [event] }
  | EventPriority.High => { queue with high := queue.high ++ [event] }
  | EventPriority.Normal => { queue with normal := queue.normal ++ [event] }
  | EventPriority.Low => { queue with low := queue.low ++ [event] }

/-- `TeeControllerManager::queue_event`: with a positive dedup window, an
event whose key was last *enqueued* less than the window ago is dropped
(before the map is touched); otherwise the key's timestamp is set to `now`
and the event is pushed onto its priority queue.  `now - last` models
`last_seen.elapsed()`. -/
def queue_event (dedup_window : Nat) (queue : EventQueue) (event : ReconciliationEvent)
    (now : Nat) : EventQueue :=
  if 0 < dedup_window then
    let dropped :=
      match queue.dedup_map.lookup (dedup_key_of event) with
      | some last_seen => decide (now - last_seen < dedup_window)
      | none => false
    if dropped then queue
    else
      enqueue_by_priority
        { queue with dedup_map := (dedup_key_of event, now) :: queue.dedup_map } event
  else enqueue_by_priority queue event

/-- Total number of queued events across the four priority bands. -/
def EventQueue.total_len (queue : EventQueue) : Nat :=
  queue.critical.length + queue.high.length + queue.normal.length + queue.low.length

/-! ### Projection lemmas for the store operations -/

theorem push_label_index_revision (key : String) :
    ∀ (l : List (String × String)) (σ : TeeMemoryStore),
      (push_label_index σ key l).revision = σ.revision := by
  intro l
  induction l with
  | nil => intro σ; rfl
  | cons p rest ih =>
    intro σ
    obtain ⟨lk, lv⟩ := p
    rw [push_label_index, ih]

theorem push_label_index_tables (key : String) :
    ∀ (l : List (String × String)) (σ : TeeMemoryStore),
      (push_label_index σ key l).tables = σ.tables := by
  intro l
  induction l with
  | nil => intro σ; rfl
  | cons p rest ih =>
    intro σ
    obtain ⟨lk, lv⟩ := p
    rw [push_label_index, ih]

theorem push_label_index_namespace_index (key : String) :
    ∀ (l : List (String × String)) (σ : TeeMemoryStore),
      (push_label_index σ key l).namespace_index = σ.namespace_index := by
  intro l
  induction l with
  | nil => intro σ; rfl
  | cons p rest ih =>
    intro σ
    obtain ⟨lk, lv⟩ := p
    rw [push_label_index, ih]

/-- The object `create_object` stores. -/
def created_object (cfg : StoreConfig) (σ : TeeMemoryStore) (data : List Nat)
    (metadata : ObjectMetadata) (now : Nat) : CompressedObject :=
  { data :=
      if data.length > cfg.compression_threshold then compress_prepend_size data else data
    metadata := metadata, created := now, modified := now
    resource_version := σ.revision }

theorem create_object_revision (cfg : StoreConfig) (σ : TeeMemoryStore)
    (rt key : String) (data : List Nat) (md : ObjectMetadata) (now : Nat) :
    (create_object cfg σ rt key data md now).1.revision = σ.revision + 1 := by
  unfold create_object update_indexes_for_create
  cases md.nspace <;> simp [push_label_index_revision]

theorem create_object_version (cfg : StoreConfig) (σ : TeeMemoryStore)
    (rt key : String) (data : List Nat) (md : ObjectMetadata) (now : Nat) :
    (create_object cfg σ rt key data md now).2 = σ.revision := by
  unfold create_object update_indexes_for_create
  cases md.nspace <;> simp

theorem create_object_tables (cfg : StoreConfig) (σ : TeeMemoryStore)
    (rt key : String) (data : List Nat) (md : ObjectMetadata) (now : Nat) :
    (create_object cfg σ rt key data md now).1.tables = fun rt2 k2 =>
      if rt2 = rt ∧ k2 = key then some (created_object cfg σ data md now)
      else σ.tables rt2 k2 := by
  unfold create_object update_indexes_for_create created_object
  cases md.nspace <;> simp [push_label_index_tables]

theorem create_object_namespace_index (cfg : StoreConfig) (σ : TeeMemoryStore)
    (rt key : String) (data : List Nat) (md : ObjectMetadata) (now : Nat) :
    (create_object cfg σ rt key data md now).1.namespace_index = fun n =>
      match md.nspace with
      | some ns => if n = ns then σ.namespace_index n ++ [key] else σ.namespace_index n
      | none => σ.namespace_index n := by
  unfold create_object update_indexes_for_create
  cases md.nspace <;> simp [push_label_index_namespace_index]

theorem delete_object_some (σ : TeeMemoryStore) (rt key : String)
    (o : CompressedObject) (h : σ.tables rt key = some o) :
    (delete_object σ rt key).2 = true ∧
    (delete_object σ rt key).1.revision = σ.revision + 1 ∧
    (delete_object σ rt key).1.tables = (fun rt2 k2 =>
      if rt2 = rt ∧ k2 = key then none else σ.tables rt2 k2) ∧
    (delete_object σ rt key).1.namespace_index =
      fun n => (σ.namespace_index n).filter (fun k => k != key) := by
  unfold delete_object update_indexes_for_delete
  rw [h]
  exact ⟨rfl, rfl, rfl, rfl⟩

theorem delete_object_absent (σ : TeeMemoryStore) (rt key : String)
    (h : σ.tables rt key = none) : delete_object σ rt key = (σ, false) := by
  unfold delete_object
  rw [h]

/-! ### Concrete fixtures -/

/-- Pod metadata in namespace `default`. -/
def md_pod : ObjectMetadata := ⟨"Pod", some "default", [], [], 3, []⟩

/-- Service metadata in namespace `default`. -/
def md_svc : ObjectMetadata := ⟨"Service", some "default", [], [], 3, []⟩

/-- Store after creating `pods/a` (payload `[1, 2, 3]`, assigned version 1,
counter then 2). -/
def store_after_create : TeeMemoryStore :=
  (create_object StoreConfig.default TeeMemoryStore.new "pods" "a" [1, 2, 3] md_pod 100).1

/-! ### Claim C1 -/

/-- Claim C1 (code bug witness at the failing input): with `pods/a` stored at
version 1, `update_object` with `expected_version = 999` does *not* fail with
a version mismatch — it succeeds with `Ok 3`, replaces the payload and
advances the counter twice, because the version comparison of the source is
stubbed out ("we'll assume it matches"). -/
theorem c1_update_ignores_expected_version :
    (update_object StoreConfig.default store_after_create "pods" "a" [4, 5, 6] md_pod
        (some 999) 200).2 = Except.ok 3 ∧
    ((update_object StoreConfig.default store_after_create "pods" "a" [4, 5, 6] md_pod
        (some 999) 200).1.tables "pods" "a").map (fun o => o.data) = some [4, 5, 6] ∧
    (update_object StoreConfig.default store_after_create "pods" "a" [4, 5, 6] md_pod
        (some 999) 200).1.revision = 4 ∧
    (store_after_create.tables "pods" "a").map (fun o => o.resource_version) = some 1 := by
  refine ⟨rfl, rfl, rfl, rfl⟩

/-! ### Claim C2 -/

/-- Claim C2 counterexample: creating `pods/a` twice does not fail with
`Conflict` on the second call — the second `create_object` succeeds, returns
version 2 and silently replaces the first record's payload. -/
theorem c2_create_overwrites_existing :
    (create_object StoreConfig.default store_after_create "pods" "a" [7, 7] md_pod 101).2
      = 2 ∧
    ((create_object StoreConfig.default store_after_create "pods" "a" [7, 7] md_pod
        101).1.tables "pods" "a").map (fun o => o.data) = some [7, 7] ∧
    (store_after_create.tables "pods" "a").map (fun o => o.data) = some [1, 2, 3] := by
  refine ⟨rfl, rfl, rfl⟩

/-- Claim C2 (amended): `create_object` never checks for an existing record;
for every store, kind, key, payload and metadata it succeeds, returns the
taken revision, advances the counter by one, and stores the new object at
the key (overwriting whatever was there). -/
theorem c2_create_always_succeeds (cfg : StoreConfig) (σ : TeeMemoryStore)
    (rt key : String) (data : List Nat) (md : ObjectMetadata) (now : Nat) :
    (create_object cfg σ rt key data md now).2 = σ.revision ∧
    (create_object cfg σ rt key data md now).1.revision = σ.revision + 1 ∧
    (create_object cfg σ rt key data md now).1.tables rt key =
      some (created_object cfg σ data md now) := by
  refine ⟨create_object_version cfg σ rt key data md now,
    create_object_revision cfg σ rt key data md now, ?_⟩
  rw [create_object_tables]
  simp

/-! ### Claim C3 -/

/-- Store after creating `pods/big` with a 1025-byte highly compressible
payload (1025 > threshold 1024, so it is stored compressed; the compressed
frame is 14 bytes ≤ 1024). -/
def store_after_big_create : TeeMemoryStore :=
  (create_object StoreConfig.default TeeMemoryStore.new "pods" "big"
    (List.replicate 1025 0) md_pod 1).1

set_option maxRecDepth 20000 in
/-- Claim C3 (code bug witness at the failing input): a 1025-byte payload of
zeros is stored compressed (a 14-byte frame), and because `decompress_object`
only decompresses when the *stored* length exceeds the threshold,
`get_object` returns the 14-byte compressed frame instead of the original
1025 bytes — compression is not transparent. -/
theorem c3_compression_not_transparent :
    (List.replicate 1025 (0 : Nat)).length > StoreConfig.default.compression_threshold ∧
    get_object StoreConfig.default store_after_big_create "pods" "big" =
      some (compress_prepend_size (List.replicate 1025 0)) ∧
    (compress_prepend_size (List.replicate 1025 0)).length = 14 ∧
    get_object StoreConfig.default store_after_big_create "pods" "big" ≠
      some (List.replicate 1025 0) := by
  refine ⟨?_, ?_, ?_, ?_⟩ <;> decide

/-- The store really is transparent in the two benign regimes: a payload at
most the threshold round-trips verbatim, and a payload whose *compressed*
frame still exceeds the threshold round-trips through the codec.  (The gap
between the two — large payload, small frame — is claim C3's bug.) -/
theorem get_create_roundtrip_benign (cfg : StoreConfig) (σ : TeeMemoryStore)
    (rt key : String) (data : List Nat) (md : ObjectMetadata) (now : Nat)
    (hlen : data.length < 4294967296)
    (h : data.length ≤ cfg.compression_threshold ∨
      (cfg.compression_threshold < data.length ∧
        cfg.compression_threshold < (compress_prepend_size data).length)) :
    get_object cfg (create_object cfg σ rt key data md now).1 rt key = some data := by
  have htab : (create_object cfg σ rt key data md now).1.tables rt key
      = some (created_object cfg σ data md now) := by
    rw [create_object_tables]
    simp
  rw [get_object, htab]
  rw [Option.map_some']
  rcases h with h | ⟨h1, h2⟩
  · have hnot : ¬ data.length > cfg.compression_threshold := by omega
    simp [created_object, decompress_object, hnot]
  · have hdata : (created_object cfg σ data md now).data = compress_prepend_size data := by
      simp [created_object, h1]
    rw [hdata]
    simp [decompress_object, h2, decompress_compress data hlen]

/-! ### Claim C9 -/

/-- Claim C9: deleting an absent key returns `false` and leaves the whole
store state (revision counter, every primary table, every index) exactly
unchanged. -/
theorem c9_delete_absent_is_noop (σ : TeeMemoryStore) (rt key : String)
    (h : σ.tables rt key = none) :
    delete_object σ rt key = (σ, false) := by
  unfold delete_object
  rw [h]

/-- Claim C9 witness: deleting `pods/x` from the fresh store. -/
theorem c9_delete_absent_is_noop_witness :
    delete_object TeeMemoryStore.new "pods" "x" = (TeeMemoryStore.new, false) :=
  c9_delete_absent_is_noop TeeMemoryStore.new "pods" "x" rfl

/-! ### Claim C5 -/

/-- Version discipline of the store: every live record's version is strictly
below the global counter (so every future mutation's version is strictly
above every past one), and no two live records share a version. -/
def store_inv (σ : TeeMemoryStore) : Prop :=
  (∀ rt k o, σ.tables rt k = some o → o.resource_version < σ.revision) ∧
  (∀ rt1 k1 o1 rt2 k2 o2, σ.tables rt1 k1 = some o1 → σ.tables rt2 k2 = some o2 →
    o1.resource_version = o2.resource_version → rt1 = rt2 ∧ k1 = k2)

theorem store_inv_create (cfg : StoreConfig) (σ : TeeMemoryStore)
    (rt key : String) (data : List Nat) (md : ObjectMetadata) (now : Nat)
    (h : store_inv σ) : store_inv (create_object cfg σ rt key data md now).1 := by
  obtain ⟨hbound, hdistinct⟩ := h
  constructor
  · intro rt2 k2 o h2
    rw [create_object_tables] at h2
    simp only at h2
    rw [create_object_revision]
    by_cases hcond : rt2 = rt ∧ k2 = key
    · rw [if_pos hcond] at h2
      injection h2 with h2
      subst h2
      simp [created_object]
    · rw [if_neg hcond] at h2
      exact Nat.lt_succ_of_lt (hbound rt2 k2 o h2)
  · intro rt1 k1 o1 rt2 k2 o2 h1 h2 hv
    rw [create_object_tables] at h1 h2
    simp only at h1 h2
    by_cases hc1 : rt1 = rt ∧ k1 = key <;> by_cases hc2 : rt2 = rt ∧ k2 = key
    · rw [hc1.1, hc1.2, hc2.1, hc2.2]
      exact ⟨rfl, rfl⟩
    · rw [if_pos hc1] at h1
      rw [if_neg hc2] at h2
      injection h1 with h1
      subst h1
      have := hbound rt2 k2 o2 h2
      simp [created_object] at hv
      omega
    · rw [if_neg hc1] at h1
      rw [if_pos hc2] at h2
      injection h2 with h2
      subst h2
      have := hbound rt1 k1 o1 h1
      simp [created_object] at hv
      omega
    · rw [if_neg hc1] at h1
      rw [if_neg hc2] at h2
      exact hdistinct rt1 k1 o1 rt2 k2 o2 h1 h2 hv

theorem store_inv_delete (σ : TeeMemoryStore) (rt key : String)
    (h : store_inv σ) : store_inv (delete_object σ rt key).1 := by
  obtain ⟨hbound, hdistinct⟩ := h
  cases hc : σ.tables rt key with
  | none =>
    rw [delete_object_absent σ rt key hc]
    exact ⟨hbound, hdistinct⟩
  | some o =>
    obtain ⟨-, hrev, htab, -⟩ := delete_object_some σ rt key o hc
    constructor
    · intro rt2 k2 o2 h2
      rw [htab] at h2
      simp only at h2
      rw [hrev]
      by_cases hcond : rt2 = rt ∧ k2 = key
      · rw [if_pos hcond] at h2
        cases h2
      · rw [if_neg hcond] at h2
        exact Nat.lt_succ_of_lt (hbound rt2 k2 o2 h2)
    · intro rt1 k1 o1 rt2 k2 o2 h1 h2 hv
      rw [htab] at h1 h2
      simp only at h1 h2
      by_cases hc1 : rt1 = rt ∧ k1 = key
      · rw [if_pos hc1] at h1
        cases h1
      · by_cases hc2 : rt2 = rt ∧ k2 = key
        · rw [if_pos hc2] at h2
          cases h2
        · rw [if_neg hc1] at h1
          rw [if_neg hc2] at h2
          exact hdistinct rt1 k1 o1 rt2 k2 o2 h1 h2 hv

theorem store_inv_update (cfg : StoreConfig) (σ : TeeMemoryStore)
    (rt key : String) (data : List Nat) (md : ObjectMetadata)
    (expected_version : Option Nat) (now : Nat) (h : store_inv σ) :
    store_inv (update_object cfg σ rt key data md expected_version now).1 := by
  have hproceed :
      store_inv (create_object cfg (delete_object σ rt key).1 rt key data md now).1 :=
    store_inv_create cfg _ rt key data md now (store_inv_delete σ rt key h)
  unfold update_object
  cases expected_version with
  | none => exact hproceed
  | some v =>
    cases hc : σ.tables rt key with
    | none => exact h
    | some o => exact hproceed

/-- Claim C5 counterexample: after creating `pods/a` the counter is 2, but
one `update_object` call moves it to 4 — the update consumed *two* versions
(one in its internal delete, one in the re-create, which stamped the record
with version 3), so a mutating verb does not take exactly one version. -/
theorem c5_update_consumes_two_versions :
    store_after_create.revision = 2 ∧
    (update_object StoreConfig.default store_after_create "pods" "a" [4] md_pod none
        200).1.revision = 4 ∧
    ((update_object StoreConfig.default store_after_create "pods" "a" [4] md_pod none
        200).1.tables "pods" "a").map (fun o => o.resource_version) = some 3 := by
  refine ⟨rfl, rfl, rfl⟩

/-- Claim C5 (amended): versions are strictly increasing and never shared —
every live record's version stays strictly below the counter, no two live
records share a version, and this is preserved by `create_object` (which
takes exactly the current counter value and advances it), `delete_object`,
and `update_object` (which, however, may consume two counter values: one for
its internal delete and one for the re-create). -/
theorem c5_version_monotonicity (cfg : StoreConfig) (σ : TeeMemoryStore)
    (rt key : String) (data : List Nat) (md : ObjectMetadata)
    (expected_version : Option Nat) (now : Nat) (h : store_inv σ) :
    store_inv (create_object cfg σ rt key data md now).1 ∧
    (create_object cfg σ rt key data md now).2 = σ.revision ∧
    (create_object cfg σ rt key data md now).1.revision = σ.revision + 1 ∧
    store_inv (delete_object σ rt key).1 ∧
    store_inv (update_object cfg σ rt key data md expected_version now).1 :=
  ⟨store_inv_create cfg σ rt key data md now h,
    create_object_version cfg σ rt key data md now,
    create_object_revision cfg σ rt key data md now,
    store_inv_delete σ rt key h,
    store_inv_update cfg σ rt key data md expected_version now h⟩

theorem store_inv_new : store_inv TeeMemoryStore.new := by
  constructor
  · intro rt k o h
    cases h
  · intro rt1 k1 o1 rt2 k2 o2 h1
    cases h1

/-- Claim C5 witness: the amended theorem applied to the fresh store. -/
theorem c5_version_monotonicity_witness :
    store_inv (create_object StoreConfig.default TeeMemoryStore.new "pods" "a" [1, 2, 3]
      md_pod 100).1 :=
  (c5_version_monotonicity StoreConfig.default TeeMemoryStore.new "pods" "a" [1, 2, 3]
    md_pod none 100 store_inv_new).1

/-! ### Claim C6 -/

theorem create_object_tables_at (cfg : StoreConfig) (σ : TeeMemoryStore)
    (rt key : String) (data : List Nat) (md : ObjectMetadata) (now : Nat)
    (rt2 k2 : String) :
    (create_object cfg σ rt key data md now).1.tables rt2 k2 =
      if rt2 = rt ∧ k2 = key then some (created_object cfg σ data md now)
      else σ.tables rt2 k2 := by
  rw [create_object_tables]

theorem create_object_namespace_index_some (cfg : StoreConfig) (σ : TeeMemoryStore)
    (rt key : String) (data : List Nat) (md : ObjectMetadata) (now : Nat)
    (ns : String) (hmd : md.nspace = some ns) (n : String) :
    (create_object cfg σ rt key data md now).1.namespace_index n =
      if n = ns then σ.namespace_index n ++ [key] else σ.namespace_index n := by
  rw [create_object_namespace_index]
  simp only [hmd]

theorem create_object_namespace_index_none (cfg : StoreConfig) (σ : TeeMemoryStore)
    (rt key : String) (data : List Nat) (md : ObjectMetadata) (now : Nat)
    (hmd : md.nspace = none) (n : String) :
    (create_object cfg σ rt key data md now).1.namespace_index n =
      σ.namespace_index n := by
  rw [create_object_namespace_index]
  simp only [hmd]

theorem delete_object_tables_at (σ : TeeMemoryStore) (rt key : String)
    (o : CompressedObject) (h : σ.tables rt key = some o) (rt2 k2 : String) :
    (delete_object σ rt key).1.tables rt2 k2 =
      if rt2 = rt ∧ k2 = key then none else σ.tables rt2 k2 := by
  obtain ⟨-, -, htab, -⟩ := delete_object_some σ rt key o h
  rw [htab]

theorem delete_object_namespace_index_at (σ : TeeMemoryStore) (rt key : String)
    (o : CompressedObject) (h : σ.tables rt key = some o) (n : String) :
    (delete_object σ rt key).1.namespace_index n =
      (σ.namespace_index n).filter (fun k2 => k2 != key) := by
  obtain ⟨-, -, -, hns⟩ := delete_object_some σ rt key o h
  rw [hns]

/-- Coherence of the (kind-agnostic) namespace index with the primary
tables: keys are globally unique across kinds, every index entry is
duplicate-free, and a key sits in namespace `n`'s entry exactly when some
kind's table holds it with namespace `n`. -/
def ns_inv (σ : TeeMemoryStore) : Prop :=
  (∀ k rt1 rt2 o1 o2, σ.tables rt1 k = some o1 → σ.tables rt2 k = some o2 → rt1 = rt2) ∧
  (∀ n, (σ.namespace_index n).Nodup) ∧
  (∀ n k, k ∈ σ.namespace_index n ↔
    ∃ rt o, σ.tables rt k = some o ∧ o.metadata.nspace = some n)

theorem ns_inv_create (cfg : StoreConfig) (σ : TeeMemoryStore)
    (rt key : String) (data : List Nat) (md : ObjectMetadata) (now : Nat)
    (h : ns_inv σ) (hfresh : ∀ rt2, σ.tables rt2 key = none) :
    ns_inv (create_object cfg σ rt key data md now).1 := by
  obtain ⟨huniq, hnodup, hmem⟩ := h
  have hkey_not_in : ∀ n, key ∉ σ.namespace_index n := by
    intro n hk
    obtain ⟨rt2, o, ho, -⟩ := (hmem n key).1 hk
    rw [hfresh rt2] at ho
    cases ho
  have hobj : (created_object cfg σ data md now).metadata = md := rfl
  refine ⟨?_, ?_, ?_⟩
  · intro k rt1 rt2 o1 o2 h1 h2
    rw [create_object_tables_at] at h1 h2
    by_cases c1 : rt1 = rt ∧ k = key <;> by_cases c2 : rt2 = rt ∧ k = key
    · rw [c1.1, c2.1]
    · rw [if_neg c2] at h2
      rw [c1.2, hfresh rt2] at h2
      cases h2
    · rw [if_neg c1] at h1
      rw [c2.2, hfresh rt1] at h1
      cases h1
    · rw [if_neg c1] at h1
      rw [if_neg c2] at h2
      exact huniq k rt1 rt2 o1 o2 h1 h2
  · intro n
    cases hmd : md.nspace with
    | none =>
      rw [create_object_namespace_index_none cfg σ rt key data md now hmd]
      exact hnodup n
    | some ns =>
      rw [create_object_namespace_index_some cfg σ rt key data md now ns hmd]
      by_cases hn : n = ns
      · rw [if_pos hn, List.nodup_append]
        exact ⟨hnodup n, List.nodup_singleton key,
          fun x hx hx2 => hkey_not_in n (by rwa [List.mem_singleton.1 hx2] at hx)⟩
      · rw [if_neg hn]
        exact hnodup n
  · intro n k
    by_cases hk : k = key
    · subst hk
      constructor
      · intro hin
        cases hmd : md.nspace with
        | none =>
          rw [create_object_namespace_index_none cfg σ rt k data md now hmd] at hin
          exact absurd hin (hkey_not_in n)
        | some ns =>
          rw [create_object_namespace_index_some cfg σ rt k data md now ns hmd] at hin
          by_cases hn : n = ns
          · refine ⟨rt, created_object cfg σ data md now, ?_, ?_⟩
            · rw [create_object_tables_at, if_pos ⟨rfl, rfl⟩]
            · rw [hobj, hmd, hn]
          · rw [if_neg hn] at hin
            exact absurd hin (hkey_not_in n)
      · rintro ⟨rt2, o, ho, hons⟩
        rw [create_object_tables_at] at ho
        by_cases c : rt2 = rt
        · rw [if_pos ⟨c, rfl⟩] at ho
          have ho2 : o = created_object cfg σ data md now := (Option.some.inj ho).symm
          rw [ho2, hobj] at hons
          rw [create_object_namespace_index_some cfg σ rt k data md now n hons,
            if_pos rfl]
          exact List.mem_append.2 (Or.inr (List.mem_singleton.2 rfl))
        · rw [if_neg (fun hx => c hx.1), hfresh rt2] at ho
          cases ho
    · have htab_eq : ∀ rt2,
          (create_object cfg σ rt key data md now).1.tables rt2 k = σ.tables rt2 k := by
        intro rt2
        rw [create_object_tables_at, if_neg (fun hx => hk hx.2)]
      have hidx : k ∈ (create_object cfg σ rt key data md now).1.namespace_index n ↔
          k ∈ σ.namespace_index n := by
        cases hmd : md.nspace with
        | none => rw [create_object_namespace_index_none cfg σ rt key data md now hmd]
        | some ns =>
          rw [create_object_namespace_index_some cfg σ rt key data md now ns hmd]
          by_cases hn : n = ns
          · rw [if_pos hn]
            constructor
            · intro hin
              rcases List.mem_append.1 hin with hin | hin
              · exact hin
              · exact absurd (List.mem_singleton.1 hin) hk
            · intro hin
              exact List.mem_append.2 (Or.inl hin)
          · rw [if_neg hn]
      rw [hidx, hmem n k]
      constructor
      · rintro ⟨rt2, o, ho, hons⟩
        refine ⟨rt2, o, ?_, hons⟩
        rw [htab_eq rt2]
        exact ho
      · rintro ⟨rt2, o, ho, hons⟩
        rw [htab_eq rt2] at ho
        exact ⟨rt2, o, ho, hons⟩

theorem ns_inv_delete (σ : TeeMemoryStore) (rt key : String) (h : ns_inv σ) :
    ns_inv (delete_object σ rt key).1 := by
  obtain ⟨huniq, hnodup, hmem⟩ := h
  cases hc : σ.tables rt key with
  | none =>
    rw [delete_object_absent σ rt key hc]
    exact ⟨huniq, hnodup, hmem⟩
  | some o0 =>
    refine ⟨?_, ?_, ?_⟩
    · intro k rt1 rt2 o1 o2 h1 h2
      rw [delete_object_tables_at σ rt key o0 hc] at h1 h2
      by_cases c1 : rt1 = rt ∧ k = key
      · rw [if_pos c1] at h1
        cases h1
      · by_cases c2 : rt2 = rt ∧ k = key
        · rw [if_pos c2] at h2
          cases h2
        · rw [if_neg c1] at h1
          rw [if_neg c2] at h2
          exact huniq k rt1 rt2 o1 o2 h1 h2
    · intro n
      rw [delete_object_namespace_index_at σ rt key o0 hc n]
      exact (hnodup n).filter _
    · intro n k
      rw [delete_object_namespace_index_at σ rt key o0 hc n]
      by_cases hk : k = key
      · subst hk
        constructor
        · intro hin
          have h2 := (List.mem_filter.1 hin).2
          simp at h2
        · rintro ⟨rt2, o, ho, -⟩
          rw [delete_object_tables_at σ rt k o0 hc] at ho
          by_cases c : rt2 = rt
          · rw [if_pos ⟨c, rfl⟩] at ho
            cases ho
          · rw [if_neg (fun hx => c hx.1)] at ho
            exact absurd (huniq k rt2 rt o o0 ho hc) c
      · have hfil : k ∈ (σ.namespace_index n).filter (fun k2 => k2 != key) ↔
            k ∈ σ.namespace_index n := by
          rw [List.mem_filter]
          simp [hk]
        rw [hfil, hmem n k]
        constructor
        · rintro ⟨rt2, o, ho, hons⟩
          refine ⟨rt2, o, ?_, hons⟩
          rw [delete_object_tables_at σ rt key o0 hc, if_neg (fun hx => hk hx.2)]
          exact ho
        · rintro ⟨rt2, o, ho, hons⟩
          rw [delete_object_tables_at σ rt key o0 hc, if_neg (fun hx => hk hx.2)] at ho
          exact ⟨rt2, o, ho, hons⟩

theorem ns_inv_update (cfg : StoreConfig) (σ : TeeMemoryStore)
    (rt key : String) (data : List Nat) (md : ObjectMetadata)
    (expected_version : Option Nat) (now : Nat) (h : ns_inv σ)
    (hu : ∀ rt2, rt2 ≠ rt → σ.tables rt2 key = none) :
    ns_inv (update_object cfg σ rt key data md expected_version now).1 := by
  have hfresh_after : ∀ rt2, (delete_object σ rt key).1.tables rt2 key = none := by
    intro rt2
    cases hc : σ.tables rt key with
    | none =>
      rw [delete_object_absent σ rt key hc]
      by_cases hr : rt2 = rt
      · rw [hr]
        exact hc
      · exact hu rt2 hr
    | some o0 =>
      rw [delete_object_tables_at σ rt key o0 hc]
      by_cases hr : rt2 = rt
      · rw [if_pos ⟨hr, rfl⟩]
      · rw [if_neg (fun hx => hr hx.1)]
        exact hu rt2 hr
  have hproceed : ns_inv (create_object cfg (delete_object σ rt key).1 rt key data md
      now).1 :=
    ns_inv_create cfg _ rt key data md now (ns_inv_delete σ rt key h) hfresh_after
  unfold update_object
  cases expected_version with
  | none => exact hproceed
  | some v =>
    cases hc : σ.tables rt key with
    | none => exact h
    | some o => exact hproceed

/-- Claim C6 counterexample: create `pods/a` and `services/b`, both in
namespace `default`.  The namespace index entry for `default` then contains
`"b"` even though `"b"` is not a key of the `pods` table — the index is not
partitioned by kind, so it does not equal the set of `pods` keys with
namespace `default`. -/
theorem c6_namespace_index_not_per_kind :
    "b" ∈ (create_object StoreConfig.default store_after_create "services" "b" [2]
        md_svc 2).1.namespace_index "default" ∧
    (create_object StoreConfig.default store_after_create "services" "b" [2]
        md_svc 2).1.tables "pods" "b" = none ∧
    "a" ∈ (create_object StoreConfig.default store_after_create "services" "b" [2]
        md_svc 2).1.namespace_index "default" := by
  refine ⟨?_, ?_, ?_⟩ <;> decide

/-- Claim C6 (amended): the namespace index is keyed by namespace alone and
shared by all kinds.  Provided keys stay globally unique across kinds (a
create only with a key no table holds; an update only with a key no *other*
kind's table holds), every mutation preserves coherence: each index entry is
duplicate-free and lists exactly the keys that some kind's table holds with
that namespace.  Without that proviso the entry can mix kinds (see the
counterexample). -/
theorem c6_namespace_index_coherent (cfg : StoreConfig) (σ : TeeMemoryStore)
    (rt key : String) (data : List Nat) (md : ObjectMetadata)
    (expected_version : Option Nat) (now : Nat) (h : ns_inv σ) :
    ((∀ rt2, σ.tables rt2 key = none) →
      ns_inv (create_object cfg σ rt key data md now).1) ∧
    ns_inv (delete_object σ rt key).1 ∧
    ((∀ rt2, rt2 ≠ rt → σ.tables rt2 key = none) →
      ns_inv (update_object cfg σ rt key data md expected_version now).1) :=
  ⟨fun hfresh => ns_inv_create cfg σ rt key data md now h hfresh,
    ns_inv_delete σ rt key h,
    fun hu => ns_inv_update cfg σ rt key data md expected_version now h hu⟩

theorem ns_inv_new : ns_inv TeeMemoryStore.new := by
  refine ⟨?_, ?_, ?_⟩
  · intro k rt1 rt2 o1 o2 h1
    cases h1
  · intro n
    exact List.nodup_nil
  · intro n k
    constructor
    · intro hk
      cases hk
    · rintro ⟨rt2, o, ho, -⟩
      cases ho

/-- Claim C6 witness: the amended theorem applied to the fresh store. -/
theorem c6_namespace_index_coherent_witness :
    ns_inv (create_object StoreConfig.default TeeMemoryStore.new "pods" "a" [1, 2, 3]
      md_pod 100).1 :=
  (c6_namespace_index_coherent StoreConfig.default TeeMemoryStore.new "pods" "a"
    [1, 2, 3] md_pod none 100 ns_inv_new).1 (fun _ => rfl)

/-! ### Claim C4 (and the feasibility helper shared with C10) -/

/-- The feasibility predicates `find_best_node` actually enforces on a
candidate: cached, sufficient resources, ready, no memory/disk pressure,
and tolerations covering every `NoSchedule` taint. -/
def node_feasible (nodes : String → Option CachedNodeInfo) (pod : PendingPod)
    (n : String) : Prop :=
  ∃ info, nodes n = some info ∧
    has_sufficient_resources info pod.resources = true ∧
    info.conditions.ready = true ∧
    info.conditions.memory_pressure = false ∧
    info.conditions.disk_pressure = false ∧
    check_tolerations info pod.tolerations = true

theorem find_best_node_go_feasible (nodes : String → Option CachedNodeInfo)
    (pod : PendingPod) :
    ∀ (l : List String) (best : Option String) (bs : ℚ),
      (∀ m, best = some m → node_feasible nodes pod m) →
      ∀ n s, find_best_node_go nodes pod l best bs = some (n, s) →
        node_feasible nodes pod n := by
  intro l
  induction l with
  | nil =>
    intro best bs hbest n s h
    cases best with
    | none => cases h
    | some m =>
      simp only [find_best_node_go, Option.map_some'] at h
      injection h with h
      injection h with h1 h2
      rw [← h1]
      exact hbest m rfl
  | cons name rest ih =>
    intro best bs hbest n s h
    cases hn : nodes name with
    | none =>
      simp only [find_best_node_go, hn] at h
      exact ih best bs hbest n s h
    | some info =>
      simp only [find_best_node_go, hn] at h
      cases h1 : has_sufficient_resources info pod.resources with
      | false =>
        rw [if_pos (by rw [h1]; rfl)] at h
        exact ih best bs hbest n s h
      | true =>
      rw [if_neg (by simp [h1])] at h
      cases h2 : (!info.conditions.ready || info.conditions.memory_pressure ||
          info.conditions.disk_pressure) with
      | true =>
        rw [if_pos h2] at h
        exact ih best bs hbest n s h
      | false =>
      rw [if_neg (by simp [h2])] at h
      have hready : info.conditions.ready = true := by
        revert h2
        cases info.conditions.ready <;> simp
      have hmp : info.conditions.memory_pressure = false := by
        revert h2
        cases info.conditions.memory_pressure <;> simp
      have hdp : info.conditions.disk_pressure = false := by
        revert h2
        cases info.conditions.disk_pressure <;> simp
      cases h3 : check_tolerations info pod.tolerations with
      | false =>
        rw [if_pos (by rw [h3]; rfl)] at h
        exact ih best bs hbest n s h
      | true =>
      rw [if_neg (by simp [h3])] at h
      by_cases h4 : bs < calculate_node_score info pod
      case neg =>
        rw [if_neg h4] at h
        exact ih best bs hbest n s h
      case pos =>
      rw [if_pos h4] at h
      by_cases h5 : (100 : ℚ) ≤ calculate_node_score info pod
      case pos =>
        rw [if_pos h5] at h
        injection h with h
        injection h with hname hscore
        rw [← hname]
        exact ⟨info, hn, h1, hready, hmp, hdp, h3⟩
      case neg =>
        rw [if_neg h5] at h
        refine ih (some name) (calculate_node_score info pod) ?_ n s h
        intro m hm
        injection hm with hm
        rw [← hm]
        exact ⟨info, hn, h1, hready, hmp, hdp, h3⟩

theorem find_best_node_feasible (nodes : String → Option CachedNodeInfo)
    (sorted_nodes : List String) (pod : PendingPod) (n : String) (s : ℚ)
    (h : find_best_node nodes sorted_nodes pod = some (n, s)) :
    node_feasible nodes pod n :=
  find_best_node_go_feasible nodes pod sorted_nodes none 0
    (fun m hm => by cases hm) n s h

/-- Claim C4 (amended): a node returned by `find_best_node` passed, against
the node-cache snapshot, exactly these feasibility filters: sufficient cpu,
memory and storage; condition ready with no memory or disk pressure; and
tolerations covering every `NoSchedule` taint.  (Untolerated `NoExecute`
taints and unmatched required node affinity do *not* block selection — see
the counterexample.) -/
theorem c4_selected_node_feasible (nodes : String → Option CachedNodeInfo)
    (sorted_nodes : List String) (pod : PendingPod) (n : String) (s : ℚ)
    (h : find_best_node nodes sorted_nodes pod = some (n, s)) :
    node_feasible nodes pod n :=
  find_best_node_feasible nodes sorted_nodes pod n s h

/-! Scheduler fixtures. -/

/-- Healthy node conditions. -/
def cond_ok : NodeConditions := ⟨true, false, false, false, false⟩

/-- A node carrying an untolerated `NoExecute` taint and no labels. -/
def node_tainted : CachedNodeInfo :=
  ⟨"n1", 4000, 8000000, 100000, [],
    [⟨"dedicated", some "gpu", TaintEffect.NoExecute⟩], 0, cond_ok, 0⟩

/-- A required node selector demanding label `zone ∈ [us]`. -/
def sel_zone_us : NodeSelector :=
  ⟨[⟨[⟨"zone", SelectorOperator.In, ["us"]⟩], []⟩]⟩

/-- Node affinity with the `zone` selector as a *required* term. -/
def required_zone_us : NodeAffinity := ⟨some sel_zone_us, []⟩

/-- A pod with no tolerations and the required `zone` affinity. -/
def pod_c4 : PendingPod :=
  ⟨"p1", "p1", "default", ⟨100, 1000, 10, none, none, []⟩, some required_zone_us,
    none, none, [], 0⟩

/-- Cache holding only the tainted node. -/
def node_map_c4 : String → Option CachedNodeInfo :=
  fun n => if n = "n1" then some node_tainted else none

/-- Claim C4 counterexample: the pod has no tolerations and a required
`zone` affinity that `node_tainted` (no labels, one `NoExecute` taint) fails,
yet `find_best_node` still selects it — `NoExecute` taints and required node
affinity are not hard filters. -/
theorem c4_noexecute_and_affinity_not_blocking :
    (find_best_node node_map_c4 ["n1"] pod_c4).map Prod.fst = some "n1" ∧
    pod_c4.tolerations = [] ∧
    node_tainted.taints = [⟨"dedicated", some "gpu", TaintEffect.NoExecute⟩] ∧
    pod_c4.node_affinity = some required_zone_us ∧
    node_matches_selector node_tainted sel_zone_us = false := by
  refine ⟨?_, rfl, rfl, rfl, by decide⟩
  simp [find_best_node, find_best_node_go, node_map_c4, node_tainted, pod_c4,
    has_sufficient_resources, check_tolerations, toleration_matches_taint, cond_ok,
    calculate_node_score, calculate_resource_score, calculate_node_affinity_score,
    node_matches_selector, node_matches_selector_term, evaluate_node_selector_requirement,
    preferred_affinity_sum, calculate_pod_affinity_score, calculate_load_balancing_score,
    calculate_condition_score, required_zone_us, sel_zone_us]
  norm_num [abs_of_nonneg]

/-- A healthy untainted node with ample resources. -/
def node_good : CachedNodeInfo :=
  ⟨"good", 4000, 8000000, 100000, [], [], 0, cond_ok, 0⟩

/-- Cache holding only the good node. -/
def node_map_good : String → Option CachedNodeInfo :=
  fun n => if n = "good" then some node_good else none

/-- A plain pod: small requests, no affinity, no tolerations. -/
def pod_plain : PendingPod :=
  ⟨"p2", "p2", "default", ⟨100, 1000, 10, none, none, []⟩, none, none, none, [], 0⟩

/-- Claim C4 witness: the amended theorem applied to the good node. -/
theorem c4_selected_node_feasible_witness :
    node_feasible node_map_good pod_plain "good" :=
  c4_selected_node_feasible node_map_good ["good"] pod_plain "good"
    ((17001 : ℚ) / 400)
    (by
      simp [find_best_node, find_best_node_go, node_map_good, node_good, pod_plain,
        has_sufficient_resources, check_tolerations, cond_ok, calculate_node_score,
        calculate_resource_score, calculate_pod_affinity_score,
        calculate_load_balancing_score, calculate_condition_score]
      norm_num [abs_of_nonneg])

/-! ### Claim C8 -/

/-- Identical twin of `node_good` named `alpha`. -/
def node_alpha : CachedNodeInfo :=
  ⟨"alpha", 4000, 8000000, 100000, [], [], 0, cond_ok, 0⟩

/-- Identical twin of `node_good` named `beta`. -/
def node_beta : CachedNodeInfo :=
  ⟨"beta", 4000, 8000000, 100000, [], [], 0, cond_ok, 0⟩

/-- Cache holding the two identical nodes, with `beta` first in the sorted
vector. -/
def node_map_tie : String → Option CachedNodeInfo :=
  fun n => if n = "alpha" then some node_alpha else if n = "beta" then some node_beta
    else none

/-- Claim C8 (amended): scores being compared with a strict `>`, the *first*
node of the `sorted_nodes` iteration attaining the maximal score wins a tie —
node names are never consulted.  For two feasible equal-scoring candidates
the earlier one is returned whatever the names. -/
theorem c8_tie_prefers_earlier (nodes : String → Option CachedNodeInfo) (a b : String)
    (ia ib : CachedNodeInfo) (pod : PendingPod)
    (ha : nodes a = some ia) (hb : nodes b = some ib)
    (ha1 : has_sufficient_resources ia pod.resources = true)
    (ha2 : ia.conditions.ready = true) (ha3 : ia.conditions.memory_pressure = false)
    (ha4 : ia.conditions.disk_pressure = false)
    (ha5 : check_tolerations ia pod.tolerations = true)
    (heq : calculate_node_score ib pod = calculate_node_score ia pod)
    (hpos : 0 < calculate_node_score ia pod)
    (hlt : calculate_node_score ia pod < 100) :
    find_best_node nodes [a, b] pod = some (a, calculate_node_score ia pod) := by
  unfold find_best_node
  simp only [find_best_node_go, ha, hb]
  rw [if_neg (by simp [ha1]), if_neg (by simp [ha2, ha3, ha4]), if_neg (by simp [ha5]),
    if_pos hpos, if_neg (not_le.mpr hlt), heq]
  rw [if_neg (lt_irrefl (calculate_node_score ia pod))]
  simp [find_best_node_go]

/-- Claim C8 counterexample: two identical nodes `alpha` and `beta` score
equally; with `beta` first in `sorted_nodes`, `find_best_node` returns
`beta`, not the lexicographically smaller `alpha`. -/
theorem c8_tie_not_lexicographic :
    (find_best_node node_map_tie ["beta", "alpha"] pod_plain).map Prod.fst =
      some "beta" ∧
    "alpha" < "beta" := by
  refine ⟨?_, by rw [String.lt_iff_toList_lt]; decide⟩
  · simp [find_best_node, find_best_node_go, node_map_tie, node_alpha, node_beta,
      pod_plain, has_sufficient_resources, check_tolerations, cond_ok,
      calculate_node_score, calculate_resource_score, calculate_pod_affinity_score,
      calculate_load_balancing_score, calculate_condition_score]
    norm_num [abs_of_nonneg]

/-- Claim C8 witness: the amended theorem applied to the identical twins,
`beta` listed first. -/
theorem c8_tie_prefers_earlier_witness :
    find_best_node node_map_tie ["beta", "alpha"] pod_plain =
      some ("beta", calculate_node_score node_beta pod_plain) :=
  c8_tie_prefers_earlier node_map_tie "beta" "alpha" node_beta node_alpha pod_plain
    (by simp [node_map_tie]) (by simp [node_map_tie]) (by decide) rfl rfl rfl
    (by decide) rfl
    (by
      simp [calculate_node_score, calculate_resource_score, node_beta, pod_plain,
        calculate_pod_affinity_score, calculate_load_balancing_score,
        calculate_condition_score, cond_ok]
      norm_num [abs_of_nonneg])
    (by
      simp [calculate_node_score, calculate_resource_score, node_beta, pod_plain,
        calculate_pod_affinity_score, calculate_load_balancing_score,
        calculate_condition_score, cond_ok]
      norm_num [abs_of_nonneg])

/-! ### Claim C10 -/

/-- Every cached node has non-negative available cpu, memory and storage. -/
def nodes_nonneg (nodes : String → Option CachedNodeInfo) : Prop :=
  ∀ n info, nodes n = some info →
    0 ≤ info.available_cpu ∧ 0 ≤ info.available_memory ∧ 0 ≤ info.available_storage

theorem allocate_resources_nonneg (σ : TeeSchedulerState) (name : String)
    (res : ResourceRequirements) (h : nodes_nonneg σ.nodes)
    (hsuff : ∀ info, σ.nodes name = some info →
      has_sufficient_resources info res = true) :
    nodes_nonneg (allocate_resources σ name res).nodes := by
  unfold allocate_resources
  cases hc : σ.nodes name with
  | none => exact h
  | some info =>
    intro m info2 hm
    simp only at hm
    by_cases hmn : m = name
    · rw [if_pos hmn] at hm
      injection hm with hm
      have hs := hsuff info hc
      simp only [has_sufficient_resources, Bool.and_eq_true, decide_eq_true_eq] at hs
      rw [← hm]
      refine ⟨?_, ?_, ?_⟩ <;> simp only <;> omega
    · rw [if_neg hmn] at hm
      exact h m info2 hm

/-- Claim C10: if every cached node has non-negative availability, then so
does every node after a `schedule_pod` call — resources are subtracted only
for a node `find_best_node` just returned, which therefore passed
`has_sufficient_resources` for the same request, and the cached-decision
path does not touch the node cache at all. -/
theorem ite_state_nodes (c : Prop) [Decidable c] (σ : TeeSchedulerState)
    (dc : List (String × CachedDecision)) :
    (if c then { σ with decision_cache := dc } else σ).nodes = σ.nodes := by
  split <;> rfl

theorem c10_schedule_preserves_nonneg (enable_decision_cache : Bool)
    (max_cache_size : Nat) (σ : TeeSchedulerState) (pod : PendingPod) (fresh : Bool)
    (h : nodes_nonneg σ.nodes) :
    nodes_nonneg (schedule_pod enable_decision_cache max_cache_size σ pod fresh).1.nodes := by
  unfold schedule_pod
  simp only
  split
  · exact h
  · split
    · rename_i node score heq
      have hfeas := find_best_node_feasible σ.nodes σ.sorted_nodes pod node score heq
      obtain ⟨info, hinfo, hsuff, -⟩ := hfeas
      refine allocate_resources_nonneg _ node pod.resources ?_ ?_
      · rw [ite_state_nodes]
        exact h
      · rw [ite_state_nodes]
        intro info2 hinfo2
        rw [hinfo] at hinfo2
        injection hinfo2 with hinfo2
        rw [← hinfo2]
        exact hsuff
    · exact h

/-- Claim C10 witness: scheduling the plain pod against the good node. -/
theorem c10_schedule_preserves_nonneg_witness :
    nodes_nonneg (schedule_pod true 10000
      ⟨node_map_good, ["good"], []⟩ pod_plain false).1.nodes :=
  c10_schedule_preserves_nonneg true 10000 ⟨node_map_good, ["good"], []⟩ pod_plain
    false
    (fun n info hn => by
      by_cases hg : n = "good"
      · subst hg
        simp [node_map_good, node_good] at hn
        rw [← hn]
        refine ⟨?_, ?_, ?_⟩ <;> simp [node_good]
      · simp [node_map_good, hg] at hn)

/-! ### Claim C7 -/

theorem enqueue_by_priority_total (queue : EventQueue) (event : ReconciliationEvent) :
    (enqueue_by_priority queue event).total_len = queue.total_len + 1 := by
  cases hp : event.priority <;>
    simp [enqueue_by_priority, hp, EventQueue.total_len] <;> omega

theorem enqueue_by_priority_dedup (queue : EventQueue) (event : ReconciliationEvent) :
    (enqueue_by_priority queue event).dedup_map = queue.dedup_map := by
  cases hp : event.priority <;> simp [enqueue_by_priority, hp]

theorem queue_event_total_le (w : Nat) (queue : EventQueue)
    (event : ReconciliationEvent) (now : Nat) :
    (queue_event w queue event now).total_len ≤ queue.total_len + 1 := by
  unfold queue_event
  split
  · simp only
    split
    · omega
    · rw [enqueue_by_priority_total]
      exact Nat.le_refl _
  · rw [enqueue_by_priority_total]

theorem queue_event_cases (w : Nat) (queue : EventQueue)
    (event : ReconciliationEvent) (now : Nat) (hw : 0 < w) :
    queue_event w queue event now = queue ∨
    ((queue_event w queue event now).total_len = queue.total_len + 1 ∧
      (queue_event w queue event now).dedup_map =
        (dedup_key_of event, now) :: queue.dedup_map) := by
  unfold queue_event
  rw [if_pos hw]
  simp only
  split
  · exact Or.inl rfl
  · refine Or.inr ⟨?_, ?_⟩
    · rw [enqueue_by_priority_total]
      rfl
    · rw [enqueue_by_priority_dedup]

theorem queue_event_drops (w : Nat) (queue : EventQueue)
    (event : ReconciliationEvent) (now last : Nat) (hw : 0 < w)
    (hl : queue.dedup_map.lookup (dedup_key_of event) = some last)
    (hwin : now - last < w) :
    queue_event w queue event now = queue := by
  unfold queue_event
  rw [if_pos hw]
  simp only [hl]
  rw [if_pos (by simp [hwin])]

/-- Claim C7 (amended): with a positive window, two `queue_event` calls with
the same `(kind, key)` — the second within `dedup_window` of the first —
enqueue at most one event in total; the dropped duplicate leaves the queue
(including the window timer) untouched, and events of every priority,
Critical included, are deduplicated alike. -/
theorem c7_dedup_at_most_one (w : Nat) (queue : EventQueue)
    (e1 e2 : ReconciliationEvent) (n1 n2 : Nat) (hw : 0 < w)
    (hkey : dedup_key_of e1 = dedup_key_of e2) (_hle : n1 ≤ n2)
    (hwin : n2 - n1 < w) :
    (queue_event w (queue_event w queue e1 n1) e2 n2).total_len ≤
      queue.total_len + 1 := by
  rcases queue_event_cases w queue e1 n1 hw with hq1 | ⟨htot, hded⟩
  · rw [hq1]
    exact queue_event_total_le w queue e2 n2
  · have hlook : (queue_event w queue e1 n1).dedup_map.lookup (dedup_key_of e2) =
        some n1 := by
      rw [hded, ← hkey]
      simp [List.lookup]
    rw [queue_event_drops w _ e2 n2 n1 hw hlook hwin, htot]

/-- A normal-priority event for `pods/a` at tick 0. -/
def ev_normal : ReconciliationEvent :=
  ⟨"pods", "a", EventType.Update, [], EventPriority.Normal, 0, 0⟩

/-- A Critical event for the same `pods/a` at tick 5. -/
def ev_critical : ReconciliationEvent :=
  ⟨"pods", "a", EventType.Delete, [], EventPriority.Critical, 5, 0⟩

/-- Claim C7 counterexample: with window 100, after enqueuing the normal
event at tick 0, the *Critical* event for the same `(kind, key)` at tick 5
is dropped (no bypass), and the window timer still reads 0 — the dropped
duplicate did not refresh it. -/
theorem c7_critical_not_bypassing :
    queue_event 100 (queue_event 100 EventQueue.new ev_normal 0) ev_critical 5 =
      queue_event 100 EventQueue.new ev_normal 0 ∧
    (queue_event 100 EventQueue.new ev_normal 0).critical = [] ∧
    (queue_event 100 EventQueue.new ev_normal 0).normal = [ev_normal] ∧
    (queue_event 100 (queue_event 100 EventQueue.new ev_normal 0) ev_critical
        5).dedup_map = [("pods:a", 0)] := by
  refine ⟨?_, ?_, ?_, ?_⟩ <;> decide

/-- Claim C7 witness: the amended theorem applied to the two concrete
events. -/
theorem c7_dedup_at_most_one_witness :
    (queue_event 100 (queue_event 100 EventQueue.new ev_normal 0) ev_critical
        5).total_len ≤ EventQueue.new.total_len + 1 :=
  c7_dedup_at_most_one 100 EventQueue.new ev_normal ev_critical 0 5 (by decide) rfl
    (by decide) (by decide)

end NautilusTee
